import Mathlib

/-!
Verification of the resume-mcp access-gating and tool-dispatch engine
(src/index.ts), shallowly embedded in Lean 4.

Modelling conventions:
- The profile data store (data/profile.json) is an external read-only
  collaborator; executors are parameterised by a ProfileData value.
- The credential decoding library (@agent-tokens/core) is an external
  verifier; it is modelled as a parameter of type String → VerifyOutcome
  covering the three observable behaviours of
  decodeAgentTokenV0 + getIntentV1: throwing, returning no intent,
  or returning an intent record.
- JavaScript `undefined`-able values are Option; JS truthiness of a
  string parameter is (≠ none ∧ ≠ some ""), of a number parameter
  n is (n ≠ 0), of a boolean is (= true).
- JSON.stringify applied to a payload is kept symbolic via the
  TextPayload wrapper: the response carries the stringified value's
  information content rather than its character representation.
- ISO-8601 timestamps are represented by their epoch milliseconds
  (Nat); Date parsing of an ISO string is order-isomorphic to this.
- The Cloudflare KV guestbook is an append-only list of entries; the
  `env.GUESTBOOK` binding may be absent (guestbookConfigured = false).
- Batch entries are threaded sequentially; every batch property proved
  below only involves entries that do not mutate state, so the
  concurrent schedule of Promise.all is irrelevant to them.
- A `tools/call` request is modelled with its params present
  (requests whose params field is absent crash in the source and are
  subsumed under the transport-level parse fault, outside the claims).
-/

/-- Environment bindings (interface Env): whether the GUESTBOOK KV
namespace is configured. CORS_ORIGIN does not affect the core. -/
structure Env where
  guestbookConfigured : Bool
deriving DecidableEq, Repr

/-- One project record of the external profile store, restricted to the
fields the executors read (tags, featured) plus its name. -/
structure Project where
  pname : String := ""
  tags : List String := []
  featured : Bool := false
deriving DecidableEq, Repr

/-- One writing record of the external profile store. -/
structure Writing where
  title : String := ""
  platform : String := ""
deriving DecidableEq, Repr

/-- One experience record of the external profile store. -/
structure Experience where
  role : String := ""
  current : Bool := false
deriving DecidableEq, Repr

/-- The external profile store (data/profile.json): profile blob,
projects, writing, experience, and skills as a key/value object. -/
structure ProfileData where
  profile : String := ""
  projects : List Project := []
  writing : List Writing := []
  experience : List Experience := []
  skills : List (String × List String) := []
deriving DecidableEq, Repr

/-- interface GuestbookEntry. `name` and `message` are Option because a
tools/call invocation with missing arguments stores `undefined` there
(JSON.stringify then drops the key). timestamp is epoch millis. -/
structure GuestbookEntry where
  gname : Option String := none
  gmessage : Option String := none
  agent_id : Option String := none
  contact : Option String := none
  timestamp : Nat := 0
  ip_hash : Option String := none
deriving DecidableEq, Repr

/-- A guestbook entry as exposed by the REST read interface: the same
public fields with no ip_hash field. -/
structure PublicGuestbookEntry where
  gname : Option String := none
  gmessage : Option String := none
  agent_id : Option String := none
  contact : Option String := none
  timestamp : Nat := 0
deriving DecidableEq, Repr

/-- interface SessionState. -/
structure SessionState where
  hasAccess : Bool
  agentToken : Option String := none
deriving DecidableEq, Repr

/-- The argument record of a tools/call invocation
(Record<string, unknown>, projected onto the fields each tool reads);
an absent property is none. -/
structure ToolParams where
  tag : Option String := none
  featured_only : Option Bool := none
  platform : Option String := none
  limit : Option Int := none
  current_only : Option Bool := none
  category : Option String := none
  pname : Option String := none
  pmessage : Option String := none
  agent_id : Option String := none
  contact : Option String := none
deriving DecidableEq, Repr

/-- One entry of the TOOLS catalog: its name and the required-field
list of its input schema (the fields the claims consult). -/
structure ToolDescriptor where
  tname : String
  required : List String
deriving DecidableEq, Repr

/-- const TOOLS: the six-entry catalog, in source order. -/
def TOOLS : List ToolDescriptor :=
  [ { tname := "get_profile", required := [] },
    { tname := "get_projects", required := [] },
    { tname := "get_writing", required := [] },
    { tname := "get_experience", required := [] },
    { tname := "get_skills", required := [] },
    { tname := "leave_message", required := ["name", "message"] } ]

/-- const FREE_TOOLS. -/
def FREE_TOOLS : List String :=
  ["get_profile", "get_projects", "get_writing", "leave_message"]

/-- const GATED_TOOLS. -/
def GATED_TOOLS : List String := ["get_experience", "get_skills"]

/-- function getProfile. -/
def getProfile (data : ProfileData) : String := data.profile

/-- JS String.prototype.toLowerCase, modelled character-wise. -/
def jsToLower (s : String) : String := ⟨s.data.map Char.toLower⟩

/-- The tag-filter statement of getProjects: when params.tag is truthy,
keep the projects whose stored tag list contains the lowercased query
verbatim (Array.includes). -/
def filterByTag (tag : Option String) (projects : List Project) : List Project :=
  match tag with
  | some t => if t ≠ "" then projects.filter (fun p => p.tags.contains (jsToLower t)) else projects
  | none => projects

/-- The featured-filter statement of getProjects: applied when
params.featured_only is truthy. -/
def filterByFeatured (featured_only : Option Bool) (projects : List Project) : List Project :=
  match featured_only with
  | some b => if b then projects.filter (fun p => p.featured) else projects
  | none => projects

/-- function getProjects: the tag filter, then the featured filter. -/
def getProjects (data : ProfileData) (params : ToolParams) : List Project :=
  filterByFeatured params.featured_only (filterByTag params.tag data.projects)

/-- The platform-filter statement of getWriting: applied when
params.platform is truthy. -/
def filterByPlatform (platform : Option String) (writing : List Writing) : List Writing :=
  match platform with
  | some pf => if pf ≠ "" then writing.filter (fun w => w.platform = pf) else writing
  | none => writing

/-- The slice statement of getWriting: slice(0, limit) when limit is
truthy and > 0 (so limit = 0 and negative limits leave the list
whole). -/
def sliceByLimit (limit : Option Int) (writing : List Writing) : List Writing :=
  match limit with
  | some n => if 0 < n then writing.take n.toNat else writing
  | none => writing

/-- function getWriting: the platform filter, then the limit slice. -/
def getWriting (data : ProfileData) (params : ToolParams) : List Writing :=
  sliceByLimit params.limit (filterByPlatform params.platform data.writing)

/-- function getExperience. -/
def getExperience (data : ProfileData) (params : ToolParams) : List Experience :=
  match params.current_only with
  | some b => if b then data.experience.filter (fun e => e.current) else data.experience
  | none => data.experience

/-- The property names every plain JS object inherits from
Object.prototype; the `in` operator also matches these. -/
def OBJECT_PROTOTYPE_KEYS : List String :=
  ["constructor", "hasOwnProperty", "isPrototypeOf", "propertyIsEnumerable",
   "toLocaleString", "toString", "valueOf",
   "__defineGetter__", "__defineSetter__", "__lookupGetter__",
   "__lookupSetter__", "__proto__"]

/-- The value getSkills returns: the whole skills store, a single-key
object with an own category's data, or a single-key object whose
value is the inherited Object.prototype member named by the category
(a function at runtime, dropped by JSON.stringify). -/
inductive SkillsResult where
  | store (s : List (String × List String))
  | single (c : String) (v : List String)
  | singleInherited (c : String)
deriving DecidableEq, Repr

/-- function getSkills: when params.category is truthy and
`category in skills` holds, return the single-key object
\x7b[category]: skills[category]\x7d; otherwise the whole skills
object. JS `in` matches own keys and inherited Object.prototype
property names, with own keys shadowing inherited ones, so an
inherited name such as "toString" also takes the single-key branch. -/
def getSkills (data : ProfileData) (params : ToolParams) : SkillsResult :=
  match params.category with
  | some c =>
      if c ≠ "" then
        match data.skills.lookup c with
        | some v => .single c v
        | none =>
            if c ∈ OBJECT_PROTOTYPE_KEYS then .singleInherited c
            else .store data.skills
      else .store data.skills
  | none => .store data.skills

/-- The success payload returned by leaveMessage. -/
structure LeaveMessageResult where
  success : Bool
  access_granted : Bool
  rmessage : String
deriving DecidableEq, Repr

/-- JS template-literal rendering of a possibly-undefined string. -/
def jsShow : Option String → String
  | some s => s
  | none => "undefined"

/-- async function leaveMessage: builds the entry (timestamp now, ip
hash of the caller), appends it to KV when the binding is configured,
and returns the fixed success payload. Returns the appended entry
(none when KV is not configured) together with the payload. -/
def leaveMessage (pname pmessage agent_id contact : Option String)
    (env : Env) (now : Nat) (ipHash : String) :
    Option GuestbookEntry × LeaveMessageResult :=
  let entry : GuestbookEntry :=
    { gname := pname, gmessage := pmessage, agent_id := agent_id,
      contact := contact, timestamp := now, ip_hash := some ipHash }
  ( if env.guestbookConfigured then some entry else none,
    { success := true, access_granted := true,
      rmessage := "Thanks, " ++ jsShow pname ++ "! You now have access to all profile information." } )

/-- The hint carried by a gated-tool denial payload. -/
def accessHint : String :=
  "Call leave_message() first to introduce yourself, or include an Agent-Token header."

/-- The data object of a gated-tool denial. -/
structure DenialData where
  hint : String
  gated_tool : String
  free_tools : List String
deriving DecidableEq, Repr

/-- A tool executor's result payload, one constructor per executor. -/
inductive Payload where
  | profile (p : String)
  | projects (l : List Project)
  | writing (l : List Writing)
  | experience (l : List Experience)
  | skills (s : SkillsResult)
  | leftMessage (r : LeaveMessageResult)
deriving DecidableEq, Repr

/-- The value handleToolCall resolves to: a result payload, or an error
record with numeric code, message, and optional data. -/
inductive ToolOutcome where
  | result (p : Payload)
  | toolError (code : Int) (emessage : String) (edata : Option DenialData)
deriving DecidableEq, Repr

/-- The upgrade performed by the leave_message branch of handleToolCall
(session.hasAccess = true). -/
def grant (s : SessionState) : SessionState := { s with hasAccess := true }

/-- async function handleToolCall: denies gated tools without access
before any executor runs, then dispatches on the tool name; the
leave_message branch appends the entry, grants access and returns the
executor payload; an unknown name yields error code -32601. Returns
(outcome, session after the call, guestbook after the call). -/
def handleToolCall (data : ProfileData) (env : Env) (tool : String)
    (params : ToolParams) (session : SessionState)
    (guestbook : List GuestbookEntry) (now : Nat) (ipHash : String) :
    ToolOutcome × SessionState × List GuestbookEntry :=
  if tool ∈ GATED_TOOLS ∧ session.hasAccess = false then
    ( .toolError (-32001) "Access required"
        (some { hint := accessHint, gated_tool := tool, free_tools := FREE_TOOLS }),
      session, guestbook )
  else
    match tool with
    | "get_profile" => (.result (.profile (getProfile data)), session, guestbook)
    | "get_projects" => (.result (.projects (getProjects data params)), session, guestbook)
    | "get_writing" => (.result (.writing (getWriting data params)), session, guestbook)
    | "get_experience" => (.result (.experience (getExperience data params)), session, guestbook)
    | "get_skills" => (.result (.skills (getSkills data params)), session, guestbook)
    | "leave_message" =>
        let r := leaveMessage params.pname params.pmessage params.agent_id params.contact env now ipHash
        ( .result (.leftMessage r.2), grant session,
          match r.1 with
          | some e => guestbook ++ [e]
          | none => guestbook )
    | t => (.toolError (-32601) ("Unknown tool: " ++ t) none, session, guestbook)

/-- A JSON-RPC request id (string | number). -/
inductive RpcId where
  | num (n : Int)
  | str (s : String)
deriving DecidableEq, Repr

/-- The params of a tools/call request: tool name plus optional
argument record. -/
structure ToolCallParams where
  cname : String
  arguments : Option ToolParams := none
deriving DecidableEq, Repr

/-- interface JsonRpcRequest restricted to the fields the dispatcher
reads (the constant jsonrpc field is omitted). -/
structure JsonRpcRequest where
  rid : RpcId
  method : String
  params : ToolCallParams := { cname := "" }
deriving DecidableEq, Repr

/-- The JSON.stringify-ed text of a tools/call response content item,
kept symbolic: error data, error message object, or result payload. -/
inductive TextPayload where
  | ofData (d : DenialData)
  | ofMessage (m : String)
  | ofResult (p : Payload)
deriving DecidableEq, Repr

/-- The result object of a JSON-RPC response: the initialize
handshake info, the empty object, the catalog listing, or a
tools/call content wrapper with its isError flag (false models an
absent flag). -/
inductive RpcResult where
  | handshakeInfo
  | emptyObj
  | toolCatalog (tools : List ToolDescriptor)
  | callResult (text : TextPayload) (isError : Bool)
deriving DecidableEq, Repr

/-- A JSON-RPC error object. -/
structure RpcError where
  code : Int
  emessage : String
deriving DecidableEq, Repr

/-- interface JsonRpcResponse (constant jsonrpc field omitted). -/
structure JsonRpcResponse where
  rid : Option RpcId
  result : Option RpcResult := none
  rpcError : Option RpcError := none
deriving DecidableEq, Repr

/-- async function handleJsonRpc: routes on the method string; a
tools/call outcome is re-wrapped so that tool errors become a
successful envelope whose content is the stringified error data (or
message object) with isError = true. Returns (response, session,
guestbook). -/
def handleJsonRpc (data : ProfileData) (env : Env) (rpc : JsonRpcRequest)
    (session : SessionState) (guestbook : List GuestbookEntry)
    (now : Nat) (ipHash : String) :
    JsonRpcResponse × SessionState × List GuestbookEntry :=
  match rpc.method with
  | "initialize" => ({ rid := some rpc.rid, result := some .handshakeInfo }, session, guestbook)
  | "notifications/initialized" => ({ rid := some rpc.rid, result := some .emptyObj }, session, guestbook)
  | "tools/list" => ({ rid := some rpc.rid, result := some (.toolCatalog TOOLS) }, session, guestbook)
  | "tools/call" =>
      let tc := handleToolCall data env rpc.params.cname (rpc.params.arguments.getD {})
        session guestbook now ipHash
      match tc.1 with
      | .toolError _ m d =>
          ( { rid := some rpc.rid,
              result := some (.callResult
                (match d with
                 | some d => .ofData d
                 | none => .ofMessage m) true) },
            tc.2.1, tc.2.2 )
      | .result p =>
          ( { rid := some rpc.rid, result := some (.callResult (.ofResult p) false) },
            tc.2.1, tc.2.2 )
  | "ping" => ({ rid := some rpc.rid, result := some .emptyObj }, session, guestbook)
  | m =>
      ( { rid := some rpc.rid,
          rpcError := some { code := -32601, emessage := "Method not found: " ++ m } },
        session, guestbook )

/-- The intent record extracted by getIntentV1 from a decoded token. -/
structure Intent where
  intentId : String := ""
  goal : String := ""
  mode : String := ""
deriving DecidableEq, Repr

/-- The observable behaviours of the external credential library on a
token string: decodeAgentTokenV0 throws (malformed), or getIntentV1
yields no intent record (noIntent), or an intent is extracted (ok). -/
inductive VerifyOutcome where
  | malformed
  | noIntent
  | ok (i : Intent)
deriving DecidableEq, Repr

/-- function getSessionKey: network-origin signal and first 50
characters of the client-identifier signal, absent headers replaced by
"unknown". -/
def getSessionKey (ip ua : Option String) : String :=
  (ip.getD "unknown") ++ ":" ++ ((ua.getD "unknown").take 50)

/-- The session cache as an association list keyed by session key;
lookup returns the first binding. -/
def findSession : List (String × SessionState) → String → Option SessionState
  | [], _ => none
  | (k, s) :: rest, key => if key = k then some s else findSession rest key

/-- Writing a session back into the cache under its key. -/
def setSession (sessions : List (String × SessionState)) (key : String)
    (s : SessionState) : List (String × SessionState) :=
  (key, s) :: sessions.filter (fun kv => kv.1 ≠ key)

/-- The process-wide mutable state the MCP POST path touches: the
session cache and the external guestbook store. -/
structure ServerState where
  sessions : List (String × SessionState) := []
  guestbook : List GuestbookEntry := []
deriving DecidableEq, Repr

/-- sessionCache.get / lazy create: returns the caller's session
(fresh sessions start with hasAccess = false) and the cache with the
fresh session inserted when it was absent. -/
def getOrCreateSession (sessions : List (String × SessionState)) (key : String) :
    SessionState × List (String × SessionState) :=
  match findSession sessions key with
  | some s => (s, sessions)
  | none => ({ hasAccess := false }, (key, { hasAccess := false }) :: sessions)

/-- The agent-token priming step of fetch: a token that verifies to an
intent grants access and records the token; a malformed token or one
with no intent leaves the session unchanged (the catch block only
logs). -/
def primeSession (verify : String → VerifyOutcome) (agentToken : Option String)
    (session : SessionState) : SessionState :=
  match agentToken with
  | some tok =>
      match verify tok with
      | .ok _ => { session with hasAccess := true, agentToken := some tok }
      | _ => session
  | none => session

/-- Sequential threading of handleJsonRpc over a batch, collecting
responses in input order (the entries of every batch property proved
below are non-mutating, making this equal to the Promise.all result). -/
def runBatch (data : ProfileData) (env : Env) (reqs : List JsonRpcRequest)
    (session : SessionState) (guestbook : List GuestbookEntry)
    (now : Nat) (ipHash : String) :
    List JsonRpcResponse × SessionState × List GuestbookEntry :=
  match reqs with
  | [] => ([], session, guestbook)
  | r :: rs =>
      let h := handleJsonRpc data env r session guestbook now ipHash
      let t := runBatch data env rs h.2.1 h.2.2 now ipHash
      (h.1 :: t.1, t.2.1, t.2.2)

/-- A POST body: a single JSON-RPC request or an ordered batch. -/
inductive RpcBody where
  | single (r : JsonRpcRequest)
  | batch (rs : List JsonRpcRequest)
deriving DecidableEq, Repr

/-- Dispatch of a POST body: one handleJsonRpc call for a single
request, runBatch for an ordered batch. -/
def runBody (data : ProfileData) (env : Env) (body : RpcBody)
    (session : SessionState) (guestbook : List GuestbookEntry)
    (now : Nat) (ipHash : String) :
    List JsonRpcResponse × SessionState × List GuestbookEntry :=
  match body with
  | .single r =>
      ( [(handleJsonRpc data env r session guestbook now ipHash).1],
        (handleJsonRpc data env r session guestbook now ipHash).2.1,
        (handleJsonRpc data env r session guestbook now ipHash).2.2 )
  | .batch rs => runBatch data env rs session guestbook now ipHash

/-- The MCP POST path of fetch: get-or-create the caller's session,
prime it from the Agent-Token header if present, process the body, and
leave the final session in the cache. Returns (responses, state). -/
def handleMcpPost (data : ProfileData) (env : Env)
    (verify : String → VerifyOutcome) (agentToken : Option String)
    (sessionKey : String) (body : RpcBody) (st : ServerState)
    (now : Nat) (ipHash : String) :
    List JsonRpcResponse × ServerState :=
  ( (runBody data env body
      (primeSession verify agentToken (getOrCreateSession st.sessions sessionKey).1)
      st.guestbook now ipHash).1,
    { sessions := setSession (getOrCreateSession st.sessions sessionKey).2 sessionKey
        (runBody data env body
          (primeSession verify agentToken (getOrCreateSession st.sessions sessionKey).1)
          st.guestbook now ipHash).2.1,
      guestbook := (runBody data env body
        (primeSession verify agentToken (getOrCreateSession st.sessions sessionKey).1)
        st.guestbook now ipHash).2.2 } )

/-- Dropping the ip_hash field of an entry (the rest-spread that
builds publicEntry). -/
def stripIpHash (e : GuestbookEntry) : PublicGuestbookEntry :=
  { gname := e.gname, gmessage := e.gmessage, agent_id := e.agent_id,
    contact := e.contact, timestamp := e.timestamp }

/-- The GET /api/guestbook path: the stored entries with ip_hash
stripped, sorted by timestamp descending (the comparator
(a, b) => Date(b) - Date(a)). -/
def handleGuestbookGet (entries : List GuestbookEntry) : List PublicGuestbookEntry :=
  (entries.map stripIpHash).mergeSort (fun a b => b.timestamp ≤ a.timestamp)

/-- Outcome of POST /api/guestbook: a fault response (success:false
with HTTP status) or the leaveMessage payload. -/
inductive RestPostOutcome where
  | fault (status : Nat) (error : String)
  | ok (r : LeaveMessageResult)
deriving DecidableEq, Repr

/-- The POST /api/guestbook path: rejects a missing or empty name or
message with a 400 fault before leaveMessage runs; otherwise invokes
leaveMessage without agent_id/contact. -/
def handleGuestbookPost (env : Env) (pname pmessage : Option String)
    (guestbook : List GuestbookEntry) (now : Nat) (ipHash : String) :
    RestPostOutcome × List GuestbookEntry :=
  if pname = none ∨ pname = some "" ∨ pmessage = none ∨ pmessage = some "" then
    (.fault 400 "Name and message are required", guestbook)
  else
    let r := leaveMessage pname pmessage none none env now ipHash
    ( .ok r.2,
      match r.1 with
      | some e => guestbook ++ [e]
      | none => guestbook )

/-- A small concrete profile store used by the concrete witnesses. -/
def sampleData : ProfileData :=
  { profile := "profile-blob",
    projects := [ { pname := "resume-mcp", tags := ["mcp", "cloudflare"], featured := true },
                  { pname := "agent-tokens", tags := ["tokens"], featured := false } ],
    writing := [ { title := "post-a", platform := "blog" },
                 { title := "post-b", platform := "medium" } ],
    experience := [ { role := "engineer", current := true } ],
    skills := [ ("languages", ["typescript"]), ("frameworks", ["workers"]),
                ("infrastructure", ["cloudflare"]), ("domains", ["ai"]) ] }

/-- Every handleToolCall leaves the session unchanged or grants it. -/
theorem handleToolCall_session_cases (data : ProfileData) (env : Env) (tool : String)
    (params : ToolParams) (session : SessionState) (guestbook : List GuestbookEntry)
    (now : Nat) (ip : String) :
    (handleToolCall data env tool params session guestbook now ip).2.1 = session ∨
    (handleToolCall data env tool params session guestbook now ip).2.1 = grant session := by
  unfold handleToolCall
  split
  · left; rfl
  · split <;> simp

/-- handleToolCall never downgrades an access-granted session. -/
theorem handleToolCall_access_mono (data : ProfileData) (env : Env) (tool : String)
    (params : ToolParams) (session : SessionState) (guestbook : List GuestbookEntry)
    (now : Nat) (ip : String) (h : session.hasAccess = true) :
    (handleToolCall data env tool params session guestbook now ip).2.1.hasAccess = true := by
  rcases handleToolCall_session_cases data env tool params session guestbook now ip with
    hc | hc <;> rw [hc]
  · exact h
  · rfl

/-- handleJsonRpc never downgrades an access-granted session. -/
theorem handleJsonRpc_access_mono (data : ProfileData) (env : Env) (rpc : JsonRpcRequest)
    (session : SessionState) (guestbook : List GuestbookEntry) (now : Nat) (ip : String)
    (h : session.hasAccess = true) :
    (handleJsonRpc data env rpc session guestbook now ip).2.1.hasAccess = true := by
  unfold handleJsonRpc
  split
  · exact h
  · exact h
  · exact h
  · dsimp only
    split <;> exact handleToolCall_access_mono data env _ _ session guestbook now ip h
  · exact h
  · exact h

/-- runBatch never downgrades an access-granted session. -/
theorem runBatch_access_mono (data : ProfileData) (env : Env) (reqs : List JsonRpcRequest) :
    ∀ (session : SessionState) (guestbook : List GuestbookEntry) (now : Nat) (ip : String),
    session.hasAccess = true →
    (runBatch data env reqs session guestbook now ip).2.1.hasAccess = true := by
  induction reqs with
  | nil => intro s g n i h; exact h
  | cons r rs ih =>
      intro s g n i h
      exact ih _ _ _ _ (handleJsonRpc_access_mono data env r s g n i h)

/-- primeSession never downgrades an access-granted session. -/
theorem primeSession_access_mono (verify : String → VerifyOutcome)
    (agentToken : Option String) (session : SessionState)
    (h : session.hasAccess = true) :
    (primeSession verify agentToken session).hasAccess = true := by
  unfold primeSession
  split
  · split
    · rfl
    · exact h
  · exact h

/-- Filtering out a foreign key does not change lookups of other keys. -/
theorem findSession_filter_ne (sessions : List (String × SessionState))
    (k key : String) (h : k ≠ key) :
    findSession (sessions.filter (fun kv => kv.1 ≠ key)) k = findSession sessions k := by
  induction sessions with
  | nil => rfl
  | cons kv rest ih =>
      rw [List.filter_cons]
      by_cases hk : kv.1 = key
      · rw [if_neg (by simp [hk])]
        rw [ih]
        have h1 : k ≠ kv.1 := fun hc => h (hc.trans hk)
        simp [findSession, h1]
      · rw [if_pos (by simp [hk])]
        by_cases hkk : k = kv.1
        · simp [findSession, hkk]
        · simp only [findSession, if_neg hkk]
          exact ih

/-- Looking up the key just written returns the written session. -/
theorem findSession_setSession_self (m : List (String × SessionState)) (k : String)
    (s : SessionState) : findSession (setSession m k s) k = some s := by
  simp [setSession, findSession]

/-- Writing one key leaves other keys' lookups unchanged. -/
theorem findSession_setSession_ne (m : List (String × SessionState)) (k k' : String)
    (s : SessionState) (h : k' ≠ k) :
    findSession (setSession m k s) k' = findSession m k' := by
  simp only [setSession, findSession, if_neg h]
  exact findSession_filter_ne m k' k h

/-- Lazy session creation leaves other keys' lookups unchanged. -/
theorem findSession_getOrCreate_ne (sessions : List (String × SessionState))
    (key k : String) (h : k ≠ key) :
    findSession (getOrCreateSession sessions key).2 k = findSession sessions k := by
  unfold getOrCreateSession
  split
  · rfl
  · simp [findSession, h]

/-- The caller's access flag as recorded in the server state. -/
def sessionAccess (st : ServerState) (k : String) : Bool :=
  match findSession st.sessions k with
  | some s => s.hasAccess
  | none => false

/-- C5: every tool name of the catalog is in exactly one of FREE_TOOLS
and GATED_TOOLS, and the two lists together are exactly the six-entry
catalog. -/
theorem free_and_gated_partition_catalog :
    (FREE_TOOLS ++ GATED_TOOLS).Perm (TOOLS.map ToolDescriptor.tname) ∧
    TOOLS.length = 6 ∧
    ∀ t, t ∈ TOOLS.map ToolDescriptor.tname →
      Xor' (t ∈ FREE_TOOLS) (t ∈ GATED_TOOLS) := by
  refine ⟨by decide, by decide, ?_⟩
  intro t ht
  simp [TOOLS] at ht
  rcases ht with rfl | rfl | rfl | rfl | rfl | rfl <;> decide

/-- Witness for C5 at the concrete tool name get_profile. -/
theorem free_and_gated_partition_catalog_witness :
    Xor' ("get_profile" ∈ FREE_TOOLS) ("get_profile" ∈ GATED_TOOLS) :=
  free_and_gated_partition_catalog.2.2 "get_profile" (by decide)

/-- Counterexample to C10: "toString" is not one of the skill store's
category keys, yet get_skills(category="toString") does not return the
entire skills object — the inherited Object.prototype name satisfies
the `in` check, so the single-key branch is taken and the result is
the singleton object holding the inherited member. -/
theorem get_skills_inherited_key_counterexample :
    sampleData.skills.lookup "toString" = none ∧
    getSkills sampleData { category := some "toString" } = .singleInherited "toString" ∧
    getSkills sampleData { category := some "toString" } ≠ .store sampleData.skills := by
  decide

/-- C10 as amended: get_skills(category=C) returns the entire skills
object exactly when C is neither an own key of the store nor an
inherited Object.prototype property name; an own key yields the
single-category object with that key's data; an inherited prototype
name such as "toString" yields a single-key object holding the
inherited function member (serialised as an empty object), never an
error; and a single-category data result occurs only for an existing
own key. -/
theorem get_skills_category_resolution (data : ProfileData) (c : String)
    (hown : data.skills.lookup c = none) :
    (c ∉ OBJECT_PROTOTYPE_KEYS → getSkills data { category := some c } = .store data.skills) ∧
    (c ∈ OBJECT_PROTOTYPE_KEYS → getSkills data { category := some c } = .singleInherited c) ∧
    (∀ params : ToolParams, ∀ c2 v, getSkills data params = .single c2 v →
      data.skills.lookup c2 = some v) := by
  refine ⟨?_, ?_, ?_⟩
  · intro hnp
    unfold getSkills
    dsimp only
    by_cases hc : c = ""
    · rw [if_neg (by simp [hc])]
    · rw [if_pos hc, hown, if_neg hnp]
  · intro hp
    have hc : c ≠ "" := by
      intro hceq
      subst hceq
      simp [OBJECT_PROTOTYPE_KEYS] at hp
    unfold getSkills
    dsimp only
    rw [if_pos hc, hown, if_pos hp]
  · intro params c2 v hsingle
    unfold getSkills at hsingle
    rcases hcat : params.category with _ | c3
    · rw [hcat] at hsingle
      exact absurd hsingle (by simp)
    · rw [hcat] at hsingle
      dsimp only at hsingle
      by_cases hc3 : c3 = ""
      · rw [if_neg (by simp [hc3])] at hsingle
        exact absurd hsingle (by simp)
      · rw [if_pos hc3] at hsingle
        rcases hl : data.skills.lookup c3 with _ | v3
        · rw [hl] at hsingle
          by_cases hp3 : c3 ∈ OBJECT_PROTOTYPE_KEYS
          · rw [if_pos hp3] at hsingle
            exact absurd hsingle (by simp)
          · rw [if_neg hp3] at hsingle
            exact absurd hsingle (by simp)
        · rw [hl] at hsingle
          simp only [SkillsResult.single.injEq] at hsingle
          obtain ⟨rfl, rfl⟩ := hsingle
          exact hl

/-- Witness for the amended C10: "bogus" falls through to the whole
store, "toString" resolves to the inherited member. -/
theorem get_skills_category_resolution_witness :
    getSkills sampleData { category := some "bogus" } = .store sampleData.skills ∧
    getSkills sampleData { category := some "toString" } = .singleInherited "toString" :=
  ⟨(get_skills_category_resolution sampleData "bogus" (by decide)).1 (by decide),
   (get_skills_category_resolution sampleData "toString" (by decide)).2.1 (by decide)⟩

/-- C1: a tools/call of a gated tool from a session without access is
answered with a successful envelope (no protocol error) whose payload
is the denial data carrying the hint and the free tool names; the
session and the guestbook are left unchanged and the response does not
depend on the profile store, so no executor ran. -/
theorem gated_tool_denied_without_access (data : ProfileData) (env : Env)
    (rpc : JsonRpcRequest) (session : SessionState)
    (guestbook : List GuestbookEntry) (now : Nat) (ip : String)
    (hmethod : rpc.method = "tools/call") (hg : rpc.params.cname ∈ GATED_TOOLS)
    (ha : session.hasAccess = false) :
    handleJsonRpc data env rpc session guestbook now ip =
      ( { rid := some rpc.rid,
          result := some (.callResult (.ofData
            { hint := accessHint, gated_tool := rpc.params.cname,
              free_tools := FREE_TOOLS }) true),
          rpcError := none },
        session, guestbook ) := by
  have hden : handleToolCall data env rpc.params.cname (rpc.params.arguments.getD {})
      session guestbook now ip =
      ( .toolError (-32001) "Access required"
          (some { hint := accessHint, gated_tool := rpc.params.cname,
                  free_tools := FREE_TOOLS }),
        session, guestbook ) := by
    unfold handleToolCall
    rw [if_pos ⟨hg, ha⟩]
  obtain ⟨rid, method, params⟩ := rpc
  subst hmethod
  simp only [handleJsonRpc] at hden ⊢
  rw [hden]

/-- Witness for C1: a fresh session calling get_experience. -/
theorem gated_tool_denied_without_access_witness :
    handleJsonRpc sampleData { guestbookConfigured := true }
      { rid := .num 1, method := "tools/call", params := { cname := "get_experience" } }
      { hasAccess := false } [] 5 "iphash" =
      ( { rid := some (.num 1),
          result := some (.callResult (.ofData
            { hint := accessHint, gated_tool := "get_experience",
              free_tools := FREE_TOOLS }) true),
          rpcError := none },
        { hasAccess := false }, [] ) :=
  gated_tool_denied_without_access sampleData { guestbookConfigured := true }
    { rid := .num 1, method := "tools/call", params := { cname := "get_experience" } }
    { hasAccess := false } [] 5 "iphash" rfl (by decide) rfl

/-- C2: a tools/call of leave_message with non-empty name and message
appends exactly one guestbook entry, grants the session access, and
returns the success payload; a second identical invocation from the
now-granted session grants idempotently (grant of a granted session is
the same session state) and appends a second independent entry. -/
theorem leave_message_appends_and_grants (data : ProfileData) (env : Env)
    (params : ToolParams) (session : SessionState)
    (guestbook : List GuestbookEntry) (now now2 : Nat) (ip ip2 : String)
    (n m : String) (hn : params.pname = some n) (hm : params.pmessage = some m)
    (hn0 : n ≠ "") (hm0 : m ≠ "") (hkv : env.guestbookConfigured = true) :
    handleToolCall data env "leave_message" params session guestbook now ip =
      ( .result (.leftMessage
          { success := true, access_granted := true,
            rmessage := "Thanks, " ++ n ++ "! You now have access to all profile information." }),
        grant session,
        guestbook ++
          [{ gname := some n, gmessage := some m,
             agent_id := params.agent_id, contact := params.contact,
             timestamp := now, ip_hash := some ip }] ) ∧
    (grant session).hasAccess = true ∧
    grant (grant session) = grant session ∧
    handleToolCall data env "leave_message" params (grant session)
      (guestbook ++
        [{ gname := some n, gmessage := some m,
           agent_id := params.agent_id, contact := params.contact,
           timestamp := now, ip_hash := some ip }]) now2 ip2 =
      ( .result (.leftMessage
          { success := true, access_granted := true,
            rmessage := "Thanks, " ++ n ++ "! You now have access to all profile information." }),
        grant session,
        guestbook ++
          [{ gname := some n, gmessage := some m,
             agent_id := params.agent_id, contact := params.contact,
             timestamp := now, ip_hash := some ip },
           { gname := some n, gmessage := some m,
             agent_id := params.agent_id, contact := params.contact,
             timestamp := now2, ip_hash := some ip2 }] ) := by
  have hfirst : ∀ (g : List GuestbookEntry) (s : SessionState) (t : Nat) (i : String),
      handleToolCall data env "leave_message" params s g t i =
      ( .result (.leftMessage
          { success := true, access_granted := true,
            rmessage := "Thanks, " ++ n ++ "! You now have access to all profile information." }),
        grant s,
        g ++
          [{ gname := some n, gmessage := some m,
             agent_id := params.agent_id, contact := params.contact,
             timestamp := t, ip_hash := some i }] ) := by
    intro g s t i
    unfold handleToolCall
    rw [if_neg (by simp [GATED_TOOLS])]
    simp [leaveMessage, hkv, hn, hm, jsShow]
  refine ⟨hfirst guestbook session now ip, rfl, rfl, ?_⟩
  rw [hfirst _ _ now2 ip2]
  simp [grant]

/-- Witness for C2: leave_message called twice with name Ada. -/
theorem leave_message_appends_and_grants_witness :
    handleToolCall sampleData { guestbookConfigured := true } "leave_message"
      { pname := some "Ada", pmessage := some "hi" } { hasAccess := false } [] 10 "h1" =
      ( .result (.leftMessage
          { success := true, access_granted := true,
            rmessage := "Thanks, " ++ "Ada" ++ "! You now have access to all profile information." }),
        grant { hasAccess := false },
        [] ++
          [{ gname := some "Ada", gmessage := some "hi",
             agent_id := none, contact := none,
             timestamp := 10, ip_hash := some "h1" }] ) ∧
    (grant { hasAccess := false }).hasAccess = true ∧
    grant (grant { hasAccess := false }) = grant { hasAccess := false } ∧
    handleToolCall sampleData { guestbookConfigured := true } "leave_message"
      { pname := some "Ada", pmessage := some "hi" } (grant { hasAccess := false })
      ([] ++
        [{ gname := some "Ada", gmessage := some "hi",
           agent_id := none, contact := none,
           timestamp := 10, ip_hash := some "h1" }]) 11 "h1" =
      ( .result (.leftMessage
          { success := true, access_granted := true,
            rmessage := "Thanks, " ++ "Ada" ++ "! You now have access to all profile information." }),
        grant { hasAccess := false },
        [] ++
          [{ gname := some "Ada", gmessage := some "hi",
             agent_id := none, contact := none,
             timestamp := 10, ip_hash := some "h1" },
           { gname := some "Ada", gmessage := some "hi",
             agent_id := none, contact := none,
             timestamp := 11, ip_hash := some "h1" }] ) :=
  leave_message_appends_and_grants sampleData { guestbookConfigured := true }
    { pname := some "Ada", pmessage := some "hi" } { hasAccess := false } [] 10 11 "h1" "h1"
    "Ada" "hi" rfl rfl (by decide) (by decide) rfl

/-- Counterexample to C4: a tools/call of leave_message with both
required fields absent is not rejected — the dispatcher runs the
executor, which returns the success payload and appends an entry with
undefined name and message. -/
theorem dispatcher_skips_required_field_validation :
    handleToolCall sampleData { guestbookConfigured := true } "leave_message"
      {} { hasAccess := false } [] 7 "h2" =
      ( .result (.leftMessage
          { success := true, access_granted := true,
            rmessage := "Thanks, undefined! You now have access to all profile information." }),
        grant { hasAccess := false },
        [{ gname := none, gmessage := none, agent_id := none, contact := none,
           timestamp := 7, ip_hash := some "h2" }] ) := by
  unfold handleToolCall
  rw [if_neg (by simp [GATED_TOOLS])]
  simp [leaveMessage, jsShow]

/-- C4 as amended: the tools/call dispatcher performs no required-field
validation — every leave_message invocation reaches the executor and
appends an entry regardless of the declared required fields; only the
direct REST guestbook endpoint rejects a missing or empty name or
message with a 400 fault before the executor runs, leaving the
guestbook unchanged. -/
theorem required_field_validation_only_on_rest (data : ProfileData) (env : Env)
    (params : ToolParams) (session : SessionState)
    (guestbook gb2 : List GuestbookEntry) (now : Nat) (ip : String)
    (pn pm : Option String)
    (hkv : env.guestbookConfigured = true)
    (hmiss : pn = none ∨ pn = some "" ∨ pm = none ∨ pm = some "") :
    (handleToolCall data env "leave_message" params session guestbook now ip).1 =
      .result (.leftMessage
        (leaveMessage params.pname params.pmessage params.agent_id params.contact env now ip).2) ∧
    (handleToolCall data env "leave_message" params session guestbook now ip).2.2.length =
      guestbook.length + 1 ∧
    handleGuestbookPost env pn pm gb2 now ip =
      (.fault 400 "Name and message are required", gb2) := by
  have hrun : handleToolCall data env "leave_message" params session guestbook now ip =
      ( .result (.leftMessage
          (leaveMessage params.pname params.pmessage params.agent_id params.contact env now ip).2),
        grant session,
        guestbook ++
          [{ gname := params.pname, gmessage := params.pmessage,
             agent_id := params.agent_id, contact := params.contact,
             timestamp := now, ip_hash := some ip }] ) := by
    unfold handleToolCall
    rw [if_neg (by simp [GATED_TOOLS])]
    simp [leaveMessage, hkv]
  refine ⟨by rw [hrun], by rw [hrun]; simp, ?_⟩
  unfold handleGuestbookPost
  rw [if_pos hmiss]

/-- Witness for the amended C4 at a concrete missing-name input. -/
theorem required_field_validation_only_on_rest_witness :
    (handleToolCall sampleData { guestbookConfigured := true } "leave_message"
      {} { hasAccess := false } [] 7 "h2").1 =
      .result (.leftMessage
        (leaveMessage none none none none { guestbookConfigured := true } 7 "h2").2) ∧
    (handleToolCall sampleData { guestbookConfigured := true } "leave_message"
      {} { hasAccess := false } [] 7 "h2").2.2.length = ([] : List GuestbookEntry).length + 1 ∧
    handleGuestbookPost { guestbookConfigured := true } none (some "hello") [] 7 "h2" =
      (.fault 400 "Name and message are required", []) :=
  required_field_validation_only_on_rest sampleData { guestbookConfigured := true }
    {} { hasAccess := false } [] [] 7 "h2" none (some "hello") rfl (Or.inl rfl)

/-- A store exhibiting the tag-case and limit-zero behaviour. -/
def caseData : ProfileData :=
  { projects := [{ pname := "ui", tags := ["React"], featured := false }],
    writing := [{ title := "w1", platform := "blog" }] }

/-- Counterexample to C7: a stored tag "React" is not matched by the
query "React" (the query is lowercased but stored tags are compared
verbatim), although the entry's tag set contains "React"
case-insensitively; and limit = 0 returns all entries rather than the
first 0 entries. -/
theorem filtering_claim_counterexample :
    (getProjects caseData { tag := some "React" } = [] ∧
      ∃ p ∈ caseData.projects, ∃ s ∈ p.tags, jsToLower s = jsToLower "React") ∧
    (getWriting caseData { limit := some 0 } = caseData.writing ∧
      caseData.writing ≠ [] ∧ caseData.writing.take 0 = []) := by
  decide

/-- C7 as amended: for a non-empty tag X, get_projects(tag=X) is the
subsequence of get_projects() consisting of exactly the entries whose
stored tag list contains the lowercased X verbatim (case folding
applies to the query only); for N > 0, get_writing(limit=N) is the
first N entries of get_writing() in order (all of them when fewer than
N exist), while N ≤ 0 leaves the list whole. -/
theorem filtering_amended (data : ProfileData) (X : String) (N : Int)
    (hX : X ≠ "") (hN : 0 < N) :
    getProjects data { tag := some X } =
      (getProjects data {}).filter (fun p => p.tags.contains (jsToLower X)) ∧
    (getProjects data { tag := some X }).Sublist (getProjects data {}) ∧
    getWriting data { limit := some N } = (getWriting data {}).take N.toNat ∧
    (∀ M : Int, M ≤ 0 → getWriting data { limit := some M } = getWriting data {}) := by
  have hp : getProjects data { tag := some X } =
      (getProjects data {}).filter (fun p => p.tags.contains (jsToLower X)) := by
    simp only [getProjects, filterByFeatured, filterByTag]
    rw [if_pos hX]
  refine ⟨hp, ?_, ?_, ?_⟩
  · rw [hp]
    exact List.filter_sublist _
  · simp only [getWriting, sliceByLimit, filterByPlatform]
    rw [if_pos hN]
  · intro M hM
    simp only [getWriting, sliceByLimit, filterByPlatform]
    rw [if_neg (not_lt.mpr hM)]

/-- Witness for the amended C7 at tag "MCP" and limit 1. -/
theorem filtering_amended_witness :
    getProjects sampleData { tag := some "MCP" } =
      (getProjects sampleData {}).filter (fun p => p.tags.contains (jsToLower "MCP")) ∧
    getWriting sampleData { limit := some 1 } = (getWriting sampleData {}).take (1 : Int).toNat :=
  ⟨(filtering_amended sampleData "MCP" 1 (by decide) (by decide)).1,
   (filtering_amended sampleData "MCP" 1 (by decide) (by decide)).2.2.1⟩

/-- C9: the guestbook read interface returns a permutation of the
stored entries' public projections (ip_hash stripped from every entry)
ordered newest first by creation timestamp. -/
theorem guestbook_read_strips_and_sorts (entries : List GuestbookEntry) :
    (handleGuestbookGet entries).Perm (entries.map stripIpHash) ∧
    List.Pairwise (fun a b : PublicGuestbookEntry => b.timestamp ≤ a.timestamp)
      (handleGuestbookGet entries) := by
  constructor
  · exact List.mergeSort_perm (entries.map stripIpHash) _
  · have h := @List.sorted_mergeSort PublicGuestbookEntry
      (fun a b => decide (b.timestamp ≤ a.timestamp))
      (fun a b c hab hbc => by
        simp only [decide_eq_true_eq] at *
        exact le_trans hbc hab)
      (fun a b => by
        simp only [Bool.or_eq_true, decide_eq_true_eq]
        exact le_total b.timestamp a.timestamp)
      (entries.map stripIpHash)
    unfold handleGuestbookGet
    exact h.imp (fun hab => by simpa using hab)

/-- A tools/call whose tool name is outside the catalog reaches the
default branch: error code -32601, no data, state untouched. -/
theorem handleToolCall_unknown_tool (data : ProfileData) (env : Env) (tool : String)
    (params : ToolParams) (session : SessionState) (guestbook : List GuestbookEntry)
    (now : Nat) (ip : String) (h : tool ∉ TOOLS.map ToolDescriptor.tname) :
    handleToolCall data env tool params session guestbook now ip =
      (.toolError (-32601) ("Unknown tool: " ++ tool) none, session, guestbook) := by
  simp [TOOLS] at h
  obtain ⟨h1, h2, h3, h4, h5, h6⟩ := h
  unfold handleToolCall
  rw [if_neg (by simp [GATED_TOOLS, h4, h5])]
  split
  · simp_all
  · simp_all
  · simp_all
  · simp_all
  · simp_all
  · simp_all
  · rfl

/-- The envelope of an unknown-tool invocation: a successful envelope
whose content is the stringified message object with isError = true. -/
theorem handleJsonRpc_unknown_tool (data : ProfileData) (env : Env) (rid : RpcId)
    (n2 : String) (args : Option ToolParams) (session : SessionState)
    (guestbook : List GuestbookEntry) (now : Nat) (ip : String)
    (h : n2 ∉ TOOLS.map ToolDescriptor.tname) :
    handleJsonRpc data env
      { rid := rid, method := "tools/call", params := { cname := n2, arguments := args } }
      session guestbook now ip =
      ( { rid := some rid,
          result := some (.callResult (.ofMessage ("Unknown tool: " ++ n2)) true) },
        session, guestbook ) := by
  simp only [handleJsonRpc]
  rw [handleToolCall_unknown_tool data env n2 (args.getD {}) session guestbook now ip h]

/-- The free tools that read the profile store without mutating any
state (leave_message is free but mutates). -/
def freeReadTools : List String := ["get_profile", "get_projects", "get_writing"]

/-- A tools/call of a free read-only tool succeeds with the executor's
payload and leaves session and guestbook untouched, for any session. -/
theorem handleJsonRpc_free_read (data : ProfileData) (env : Env) (rpc : JsonRpcRequest)
    (session : SessionState) (guestbook : List GuestbookEntry) (now : Nat) (ip : String)
    (hm : rpc.method = "tools/call") (hf : rpc.params.cname ∈ freeReadTools) :
    ∃ p, handleJsonRpc data env rpc session guestbook now ip =
      ( { rid := some rpc.rid, result := some (.callResult (.ofResult p) false) },
        session, guestbook ) := by
  obtain ⟨rid, method, params⟩ := rpc
  obtain ⟨cname, args⟩ := params
  simp only at hm hf ⊢
  subst hm
  simp [freeReadTools] at hf
  rcases hf with rfl | rfl | rfl
  · exact ⟨.profile (getProfile data),
      by simp [handleJsonRpc, handleToolCall, GATED_TOOLS]⟩
  · exact ⟨.projects (getProjects data (args.getD {})),
      by simp [handleJsonRpc, handleToolCall, GATED_TOOLS]⟩
  · exact ⟨.writing (getWriting data (args.getD {})),
      by simp [handleJsonRpc, handleToolCall, GATED_TOOLS]⟩

/-- C6: in a three-entry batch whose second entry names an unknown
tool, the entries are processed independently in input order with
their own request ids; the first and third produce their normal
successful payloads (equal to their standalone responses), only the
second carries a fault (isError = true), that fault is classified with
the method-not-found code -32601 at the dispatch level, and the state
is untouched. -/
theorem batch_isolates_unknown_tool (data : ProfileData) (env : Env)
    (r1 r3 : JsonRpcRequest) (id2 : RpcId) (n2 : String) (args2 : Option ToolParams)
    (session : SessionState) (guestbook : List GuestbookEntry) (now : Nat) (ip : String)
    (h1m : r1.method = "tools/call") (h1 : r1.params.cname ∈ freeReadTools)
    (h3m : r3.method = "tools/call") (h3 : r3.params.cname ∈ freeReadTools)
    (h2 : n2 ∉ TOOLS.map ToolDescriptor.tname) :
    runBatch data env
      [r1, { rid := id2, method := "tools/call", params := { cname := n2, arguments := args2 } }, r3]
      session guestbook now ip =
      ( [ (handleJsonRpc data env r1 session guestbook now ip).1,
          { rid := some id2,
            result := some (.callResult (.ofMessage ("Unknown tool: " ++ n2)) true) },
          (handleJsonRpc data env r3 session guestbook now ip).1 ],
        session, guestbook ) ∧
    (∃ p1, (handleJsonRpc data env r1 session guestbook now ip).1 =
      { rid := some r1.rid, result := some (.callResult (.ofResult p1) false) }) ∧
    (∃ p3, (handleJsonRpc data env r3 session guestbook now ip).1 =
      { rid := some r3.rid, result := some (.callResult (.ofResult p3) false) }) ∧
    (handleToolCall data env n2 (args2.getD {}) session guestbook now ip).1 =
      .toolError (-32601) ("Unknown tool: " ++ n2) none := by
  obtain ⟨p1, hp1⟩ := handleJsonRpc_free_read data env r1 session guestbook now ip h1m h1
  obtain ⟨p3, hp3⟩ := handleJsonRpc_free_read data env r3 session guestbook now ip h3m h3
  have h2j := handleJsonRpc_unknown_tool data env id2 n2 args2 session guestbook now ip h2
  refine ⟨?_, ⟨p1, by rw [hp1]⟩, ⟨p3, by rw [hp3]⟩,
    by rw [handleToolCall_unknown_tool data env n2 (args2.getD {}) session guestbook now ip h2]⟩
  simp only [runBatch, hp1, h2j, hp3]

/-- Witness for C6: get_profile, an unknown tool, then get_writing. -/
theorem batch_isolates_unknown_tool_witness :
    runBatch sampleData { guestbookConfigured := true }
      [ { rid := .num 1, method := "tools/call", params := { cname := "get_profile" } },
        { rid := .num 2, method := "tools/call",
          params := { cname := "get_secrets", arguments := none } },
        { rid := .num 3, method := "tools/call", params := { cname := "get_writing" } } ]
      { hasAccess := false } [] 0 "h" =
      ( [ (handleJsonRpc sampleData { guestbookConfigured := true }
            { rid := .num 1, method := "tools/call", params := { cname := "get_profile" } }
            { hasAccess := false } [] 0 "h").1,
          { rid := some (.num 2),
            result := some (.callResult (.ofMessage ("Unknown tool: " ++ "get_secrets")) true) },
          (handleJsonRpc sampleData { guestbookConfigured := true }
            { rid := .num 3, method := "tools/call", params := { cname := "get_writing" } }
            { hasAccess := false } [] 0 "h").1 ],
        { hasAccess := false }, [] ) ∧
    (∃ p1, (handleJsonRpc sampleData { guestbookConfigured := true }
        { rid := .num 1, method := "tools/call", params := { cname := "get_profile" } }
        { hasAccess := false } [] 0 "h").1 =
      { rid := some (.num 1), result := some (.callResult (.ofResult p1) false) }) ∧
    (∃ p3, (handleJsonRpc sampleData { guestbookConfigured := true }
        { rid := .num 3, method := "tools/call", params := { cname := "get_writing" } }
        { hasAccess := false } [] 0 "h").1 =
      { rid := some (.num 3), result := some (.callResult (.ofResult p3) false) }) ∧
    (handleToolCall sampleData { guestbookConfigured := true } "get_secrets"
      ((none : Option ToolParams).getD {}) { hasAccess := false } [] 0 "h").1 =
      .toolError (-32601) ("Unknown tool: " ++ "get_secrets") none :=
  batch_isolates_unknown_tool sampleData { guestbookConfigured := true }
    { rid := .num 1, method := "tools/call", params := { cname := "get_profile" } }
    { rid := .num 3, method := "tools/call", params := { cname := "get_writing" } }
    (.num 2) "get_secrets" none { hasAccess := false } [] 0 "h"
    rfl (by decide) rfl (by decide) (by decide)

/-- A gated tool invoked by a session that has access reaches its
executor and returns its payload with the state untouched. -/
theorem handleToolCall_gated_with_access (data : ProfileData) (env : Env) (tool : String)
    (params : ToolParams) (session : SessionState) (guestbook : List GuestbookEntry)
    (now : Nat) (ip : String)
    (hg : tool ∈ GATED_TOOLS) (h : session.hasAccess = true) :
    ∃ p, handleToolCall data env tool params session guestbook now ip =
      (.result p, session, guestbook) := by
  have hng : ¬(tool ∈ GATED_TOOLS ∧ session.hasAccess = false) := by
    simp [h]
  simp [GATED_TOOLS] at hg
  rcases hg with rfl | rfl
  · exact ⟨.experience (getExperience data params), by
      unfold handleToolCall
      rw [if_neg hng]
      rfl⟩
  · exact ⟨.skills (getSkills data params), by
      unfold handleToolCall
      rw [if_neg hng]
      rfl⟩

/-- The envelope of a gated call from an access-granted session is a
successful result envelope carrying the executor payload. -/
theorem handleJsonRpc_gated_success (data : ProfileData) (env : Env) (rpc : JsonRpcRequest)
    (session : SessionState) (guestbook : List GuestbookEntry) (now : Nat) (ip : String)
    (hm : rpc.method = "tools/call") (hg : rpc.params.cname ∈ GATED_TOOLS)
    (h : session.hasAccess = true) :
    ∃ p, (handleJsonRpc data env rpc session guestbook now ip).1 =
      { rid := some rpc.rid, result := some (.callResult (.ofResult p) false) } := by
  obtain ⟨p, hp⟩ := handleToolCall_gated_with_access data env rpc.params.cname
    (rpc.params.arguments.getD {}) session guestbook now ip hg h
  obtain ⟨rid, method, params⟩ := rpc
  simp only at hm hp ⊢
  subst hm
  refine ⟨p, ?_⟩
  simp only [handleJsonRpc, hp]

/-- A batch entry that is a tools/call of a gated tool. -/
def isGatedCall (r : JsonRpcRequest) : Prop :=
  r.method = "tools/call" ∧ r.params.cname ∈ GATED_TOOLS

/-- When the session already has access, every gated entry of a batch
is answered with a successful executor-payload envelope. -/
theorem runBatch_gated_success (data : ProfileData) (env : Env) (reqs : List JsonRpcRequest) :
    ∀ (session : SessionState) (guestbook : List GuestbookEntry) (now : Nat) (ip : String),
    session.hasAccess = true →
    List.Forall₂ (fun (r : JsonRpcRequest) (resp : JsonRpcResponse) => isGatedCall r →
      ∃ p, resp = { rid := some r.rid, result := some (.callResult (.ofResult p) false) })
      reqs (runBatch data env reqs session guestbook now ip).1 := by
  induction reqs with
  | nil => intro s g n i h; exact .nil
  | cons r rs ih =>
      intro s g n i h
      simp only [runBatch]
      constructor
      · intro hgc
        exact handleJsonRpc_gated_success data env r s g n i hgc.1 hgc.2 h
      · exact ih _ _ _ _ (handleJsonRpc_access_mono data env r s g n i h)

/-- C3: a credential that verifies to an intent primes the caller's
session with access before the body is processed, so every gated
tools/call entry of the same request is answered with the executor's
payload; a malformed or intent-less credential leaves the whole
request/response behaviour identical to supplying no credential at
all (no visible error, no access change). -/
theorem credential_priming (data : ProfileData) (env : Env)
    (verify : String → VerifyOutcome) (tok : String) (key : String)
    (rs : List JsonRpcRequest) (st : ServerState) (now : Nat) (ip : String) :
    (∀ i, verify tok = .ok i →
      List.Forall₂ (fun (r : JsonRpcRequest) (resp : JsonRpcResponse) => isGatedCall r →
        ∃ p, resp = { rid := some r.rid, result := some (.callResult (.ofResult p) false) })
        rs (handleMcpPost data env verify (some tok) key (.batch rs) st now ip).1) ∧
    ((verify tok = .malformed ∨ verify tok = .noIntent) →
      ∀ body, handleMcpPost data env verify (some tok) key body st now ip =
        handleMcpPost data env verify none key body st now ip) := by
  constructor
  · intro i hok
    have hpr : (primeSession verify (some tok)
        (getOrCreateSession st.sessions key).1).hasAccess = true := by
      simp [primeSession, hok]
    simp only [handleMcpPost, runBody]
    exact runBatch_gated_success data env rs _ _ _ _ hpr
  · intro hbad body
    have hps : primeSession verify (some tok) (getOrCreateSession st.sessions key).1 =
        primeSession verify none (getOrCreateSession st.sessions key).1 := by
      rcases hbad with hb | hb <;> simp [primeSession, hb]
    simp only [handleMcpPost, hps]

/-- A concrete verifier accepting exactly the token "good". -/
def okVerify : String → VerifyOutcome := fun t =>
  if t = "good" then .ok { intentId := "i1", goal := "g", mode := "m" } else .malformed

/-- Witness for C3: a valid token makes the batch's gated entry
succeed, an invalid one behaves like no token. -/
theorem credential_priming_witness :
    List.Forall₂ (fun (r : JsonRpcRequest) (resp : JsonRpcResponse) => isGatedCall r →
      ∃ p, resp = { rid := some r.rid, result := some (.callResult (.ofResult p) false) })
      [ { rid := .num 1, method := "tools/call", params := { cname := "get_experience" } } ]
      (handleMcpPost sampleData { guestbookConfigured := true } okVerify (some "good") "k"
        (.batch [ { rid := .num 1, method := "tools/call",
                    params := { cname := "get_experience" } } ]) {} 3 "h").1 ∧
    handleMcpPost sampleData { guestbookConfigured := true } okVerify (some "bad") "k"
      (.single { rid := .num 9, method := "ping", params := { cname := "" } }) {} 3 "h" =
    handleMcpPost sampleData { guestbookConfigured := true } okVerify none "k"
      (.single { rid := .num 9, method := "ping", params := { cname := "" } }) {} 3 "h" :=
  ⟨(credential_priming sampleData { guestbookConfigured := true } okVerify "good" "k"
      [ { rid := .num 1, method := "tools/call", params := { cname := "get_experience" } } ]
      {} 3 "h").1 { intentId := "i1", goal := "g", mode := "m" } (by decide),
   (credential_priming sampleData { guestbookConfigured := true } okVerify "bad" "k"
      [] {} 3 "h").2 (Or.inl (by decide))
      (.single { rid := .num 9, method := "ping", params := { cname := "" } })⟩

/-- runBody never downgrades an access-granted session. -/
theorem runBody_access_mono (data : ProfileData) (env : Env) (body : RpcBody)
    (session : SessionState) (guestbook : List GuestbookEntry) (now : Nat) (ip : String)
    (h : session.hasAccess = true) :
    (runBody data env body session guestbook now ip).2.1.hasAccess = true := by
  cases body with
  | single r => exact handleJsonRpc_access_mono data env r session guestbook now ip h
  | batch rs => exact runBatch_access_mono data env rs session guestbook now ip h

/-- C8: the access flag recorded for a caller is monotone across any
request processed by the MCP POST path — once true it is never reset
— and granting an already-granted session is an observable no-op. -/
theorem session_access_monotone (data : ProfileData) (env : Env)
    (verify : String → VerifyOutcome) (agentToken : Option String) (key : String)
    (body : RpcBody) (st : ServerState) (now : Nat) (ip : String) (k : String)
    (h : sessionAccess st k = true) :
    sessionAccess (handleMcpPost data env verify agentToken key body st now ip).2 k = true ∧
    ∀ s : SessionState, s.hasAccess = true → grant s = s := by
  constructor
  · by_cases hk : k = key
    · subst hk
      unfold sessionAccess at h
      rcases hfs : findSession st.sessions k with _ | s0
      · rw [hfs] at h
        simp at h
      · rw [hfs] at h
        have hgc : getOrCreateSession st.sessions k = (s0, st.sessions) := by
          unfold getOrCreateSession
          rw [hfs]
        unfold sessionAccess
        simp only [handleMcpPost]
        rw [findSession_setSession_self]
        apply runBody_access_mono
        apply primeSession_access_mono
        rw [hgc]
        exact h
    · unfold sessionAccess at h ⊢
      simp only [handleMcpPost]
      rw [findSession_setSession_ne _ _ _ _ hk, findSession_getOrCreate_ne _ _ _ hk]
      exact h
  · intro s hs
    obtain ⟨a, t⟩ := s
    cases a
    · simp at hs
    · rfl

/-- Witness for C8: a granted session stays granted across a ping. -/
theorem session_access_monotone_witness :
    sessionAccess (handleMcpPost sampleData { guestbookConfigured := true } okVerify none "k"
      (.single { rid := .num 1, method := "ping", params := { cname := "" } })
      { sessions := [("k", { hasAccess := true })], guestbook := [] } 3 "h").2 "k" = true ∧
    grant { hasAccess := true, agentToken := some "good" } =
      { hasAccess := true, agentToken := some "good" } :=
  ⟨(session_access_monotone sampleData { guestbookConfigured := true } okVerify none "k"
      (.single { rid := .num 1, method := "ping", params := { cname := "" } })
      { sessions := [("k", { hasAccess := true })], guestbook := [] } 3 "h" "k" (by decide)).1,
   (session_access_monotone sampleData { guestbookConfigured := true } okVerify none "k"
      (.single { rid := .num 1, method := "ping", params := { cname := "" } })
      { sessions := [("k", { hasAccess := true })], guestbook := [] } 3 "h" "k" (by decide)).2
      { hasAccess := true, agentToken := some "good" } rfl⟩
